import Mathlib

/-!
Verification of the Ondo GM Solana simulator core: instruction classification,
trade-field extraction, and precondition-instruction synthesis.

The Rust source is shallowly embedded: byte sequences are `List Nat` (each
element `< 256`), machine integers are `Nat`/`Int` with explicit width bounds,
and fallible code returns `Except`.
-/

set_option maxRecDepth 4096

namespace OndoGm

/-! ## SHA-256 (src/discriminator.rs depends on the sha2 crate)

Executable SHA-256 over byte lists, used by `instruction_discriminator`.
-/

def w32 : Nat := 4294967296

def rotr32 (n x : Nat) : Nat := ((x >>> n) ||| (x <<< (32 - n))) % w32

def not32 (x : Nat) : Nat := Nat.xor x (w32 - 1)

def bigSigmaA (x : Nat) : Nat := Nat.xor (Nat.xor (rotr32 2 x) (rotr32 13 x)) (rotr32 22 x)

def bigSigmaE (x : Nat) : Nat := Nat.xor (Nat.xor (rotr32 6 x) (rotr32 11 x)) (rotr32 25 x)

def smallSigmaA (x : Nat) : Nat := Nat.xor (Nat.xor (rotr32 7 x) (rotr32 18 x)) (x >>> 3)

def smallSigmaB (x : Nat) : Nat := Nat.xor (Nat.xor (rotr32 17 x) (rotr32 19 x)) (x >>> 10)

def chf (x y z : Nat) : Nat := Nat.xor (Nat.land x y) (Nat.land (not32 x) z)

def majf (x y z : Nat) : Nat :=
  Nat.xor (Nat.xor (Nat.land x y) (Nat.land x z)) (Nat.land y z)

def sha256K : List Nat :=
  [1116352408, 1899447441, 3049323471, 3921009573,
   961987163, 1508970993, 2453635748, 2870763221,
   3624381080, 310598401, 607225278, 1426881987,
   1925078388, 2162078206, 2614888103, 3248222580,
   3835390401, 4022224774, 264347078, 604807628,
   770255983, 1249150122, 1555081692, 1996064986,
   2554220882, 2821834349, 2952996808, 3210313671,
   3336571891, 3584528711, 113926993, 338241895,
   666307205, 773529912, 1294757372, 1396182291,
   1695183700, 1986661051, 2177026350, 2456956037,
   2730485921, 2820302411, 3259730800, 3345764771,
   3516065817, 3600352804, 4094571909, 275423344,
   430227734, 506948616, 659060556, 883997877,
   958139571, 1322822218, 1537002063, 1747873779,
   1955562222, 2024104815, 2227730452, 2361852424,
   2428436474, 2756734187, 3204031479, 3329325298]

structure Sha256State where
  a : Nat
  b : Nat
  c : Nat
  d : Nat
  e : Nat
  f : Nat
  g : Nat
  h : Nat
deriving DecidableEq

def sha256Init : Sha256State :=
  ⟨1779033703, 3144134277, 1013904242, 2773480762,
   1359893119, 2600822924, 528734635, 1541459225⟩

def sha256Round (s : Sha256State) (kw : Nat) : Sha256State :=
  let t1 := (s.h + bigSigmaE s.e + chf s.e s.f s.g + kw) % w32
  let t2 := (bigSigmaA s.a + majf s.a s.b s.c) % w32
  ⟨(t1 + t2) % w32, s.a, s.b, s.c, (s.d + t1) % w32, s.e, s.f, s.g⟩

def extendStep (w : List Nat) : List Nat :=
  let n := w.length
  w ++ [(smallSigmaB (w.getD (n - 2) 0) + w.getD (n - 7) 0 + smallSigmaA (w.getD (n - 15) 0)
          + w.getD (n - 16) 0) % w32]

def extendW (w : List Nat) : List Nat :=
  (List.range 48).foldl (fun acc _ => extendStep acc) w

def bytesToWords : List Nat → List Nat
  | b0 :: b1 :: b2 :: b3 :: rest =>
      (b0 * 16777216 + b1 * 65536 + b2 * 256 + b3) :: bytesToWords rest
  | _ => []

def compressBlock (s : Sha256State) (block : List Nat) : Sha256State :=
  let w := extendW (bytesToWords block)
  let kw := List.zipWith (fun k wi => (k + wi) % w32) sha256K w
  let t := kw.foldl sha256Round s
  ⟨(s.a + t.a) % w32, (s.b + t.b) % w32, (s.c + t.c) % w32, (s.d + t.d) % w32,
   (s.e + t.e) % w32, (s.f + t.f) % w32, (s.g + t.g) % w32, (s.h + t.h) % w32⟩

def processBlocks : Nat → Sha256State → List Nat → Sha256State
  | 0, s, _ => s
  | _ + 1, s, [] => s
  | fuel + 1, s, l => processBlocks fuel (compressBlock s (l.take 64)) (l.drop 64)

def sha256Pad (msg : List Nat) : List Nat :=
  let bitLen := msg.length * 8
  let padZeros := (64 + 56 - (msg.length + 1) % 64) % 64
  msg ++ [0x80] ++ List.replicate padZeros 0 ++
    [bitLen / 72057594037927936 % 256, bitLen / 281474976710656 % 256,
     bitLen / 1099511627776 % 256, bitLen / 4294967296 % 256,
     bitLen / 16777216 % 256, bitLen / 65536 % 256, bitLen / 256 % 256, bitLen % 256]

def wordToBytesBE (x : Nat) : List Nat :=
  [x / 16777216 % 256, x / 65536 % 256, x / 256 % 256, x % 256]

def sha256 (msg : List Nat) : List Nat :=
  let padded := sha256Pad msg
  let s := processBlocks padded.length sha256Init padded
  wordToBytesBE s.a ++ wordToBytesBE s.b ++ wordToBytesBE s.c ++ wordToBytesBE s.d ++
    wordToBytesBE s.e ++ wordToBytesBE s.f ++ wordToBytesBE s.g ++ wordToBytesBE s.h

/-- ASCII bytes of a string (all identifiers hashed by the source are ASCII,
where UTF-8 bytes coincide with code points). -/
def strBytes (s : String) : List Nat := s.data.map (fun c => c.toNat)

/-- src/discriminator.rs `instruction_discriminator`:
the first 8 bytes of sha256("global:" ++ name). -/
def instruction_discriminator (name : String) : List Nat :=
  (sha256 (strBytes ("global:" ++ name))).take 8


/-! ## Addresses (solana-sdk `Pubkey` and its derived addresses)

The source manipulates 32-byte ed25519 keys. The only operations it performs on
them are equality, base58 display (for allow-list membership), PDA derivation
(`Pubkey::find_program_address`) and associated-token-account derivation.
We model keys as an inductive type: a key given by its base58 string, or a key
obtained by one of the two derivations.  Derivation is collision-free by
construction, matching the design assumption of spec section 4.4 that the
hash-based derivations are injective and never collide with literal keys.
-/

inductive Pubkey where
  | base58 (s : String)
  | pdaSeed1 (seed : List Nat) (programId : Pubkey)
  | pdaSeed2 (seed : List Nat) (keySeed : Pubkey) (programId : Pubkey)
  | ata (wallet : Pubkey) (mint : Pubkey) (tokenProgram : Pubkey)
deriving DecidableEq

/-- Modelled from the spec (section 4.4 Address Deriver): solana-sdk
`Pubkey::find_program_address` with a single literal seed.  The bump byte of
the returned pair is discarded by every caller in the source, so it is
omitted. -/
def find_program_address_seed (seed : List Nat) (program_id : Pubkey) : Pubkey :=
  Pubkey.pdaSeed1 seed program_id

/-- Modelled from the spec (section 4.4 Address Deriver): solana-sdk
`Pubkey::find_program_address` with a literal seed followed by the raw bytes
of a key (`key.as_ref()`), the only other call shape in the source. -/
def find_program_address_seed_key (seed : List Nat) (key : Pubkey) (program_id : Pubkey) :
    Pubkey :=
  Pubkey.pdaSeed2 seed key program_id

/-- Modelled from the spec (section 6, external collaborators): the
spl-associated-token-account crate's
`get_associated_token_address_with_program_id`, a deterministic PDA
derivation from (wallet, token program, mint). -/
def get_associated_token_address_with_program_id
    (wallet : Pubkey) (mint : Pubkey) (token_program : Pubkey) : Pubkey :=
  Pubkey.ata wallet mint token_program

/-! ## src/constants.rs -/

def ONDO_GM_PROGRAM_ID : String := "XzTT4XB8m7sLD2xi6snefSasaswsKCxx5Tifjondogm"

def JUPITER_ORDER_ENGINE_PROGRAM_ID : String := "61DFfeTKM7trxYcPQCM78bJ794ddZprZpAwAnLiwTpYH"

def ADMIN_MINTER : String := "4pfyfezvwjBrsHtJpXPPKsqH9cphwSDDb7s63KzkVEqF"

def USDC_MINT : String := "EPjFWdd5AufqSSqeM2qN1xzybapC8G4wEGGkZwyTDt1v"

def SPL_TOKEN_PROGRAM_ID : String := "TokenkegQfeZyiNwAJbNbGKPFXCWuBvf9Ss623VQ5DA"

def TOKEN_2022_PROGRAM_ID : String := "TokenzQdBNbLqP5VEhdkAS6EPFLC1PHnBqCXEpPxuEb"

def AUTHORIZED_SOLVERS : List String :=
  ["DSqMPMsMAbEJVNuPKv1ZFdzt6YvJaDPDddfeW7ajtqds",
   "2Cq2RNFFxxPXL7teNQAji1beA2vFbBDYW5BGPBFvoN9m",
   "9BB7Tt5uE5VdRsxA5XRqrjwNaq8XtgAUQW8czA6ymUPG"]

/-- src/constants.rs `GM_TOKENS`: the 202 (symbol, mint base58 address) pairs. -/
def GM_TOKENS : List (String × String) :=
  [("AALon", "9wYZetvT8J2ptfsRca5gzLBGvcUug38mp9yT3xaondo"),
   ("AAPLon", "123mYEnRLM2LLYsJW3K6oyYh8uP1fngj732iG638ondo"),
   ("ABBVon", "MFerpBVGKZh2jXN7cbJdXRXQTp6j6pbSnSZrfWrondo"),
   ("ABNBon", "128qNYovdGv2YqayErcJgU7gDwbNVX1VuoxbtWz8ondo"),
   ("ABTon", "129gRoHKhVg7CvPMrqVsEB4uYZo6zV4yDZX6NBg9ondo"),
   ("ACHRon", "KcCVQxG9LhFYP5o9DWFKTFgFShPPQkDEemVbiFyondo"),
   ("ACNon", "12LxMMJYVSf4LoeqjFE47BQQNRciaH9E3nbDfjH4ondo"),
   ("ADBEon", "12Rh6JhfW4X5fKP16bbUdb4pcVCKDHFB48x8GG33ondo"),
   ("ADIon", "LmTMwmZLNZszn3qpjmnbhfP12U4qWDivaEBwSBSondo"),
   ("AGGon", "13qTjKx53y6LKGGStiKeieGbnVx3fx1bbwopKFb3ondo"),
   ("AMATon", "7eRX747PSbVtGVx3qD5UFdkNM2BfTy86ikUiCMhondo"),
   ("AMCon", "C9xNaNujcF1a5fidWAAFReFYqhLRVbyk4yPyGqzondo"),
   ("AMDon", "14diAn5z8kjrKwSC8WLqvBqqe5YmihJhjxRxd8Z6ondo"),
   ("AMGNon", "SS6AEWhzRrxhL2cXzKKjhFt3rCzmHHGKmFyugDTondo"),
   ("AMZNon", "14Tqdo8V1FhzKsE3W2pFsZCzYPQxxupXRcqw9jv6ondo"),
   ("ANETon", "Cq6QtvHpXbJWtFaiMhUDtHy8YVZ95gcD1oZ1cohondo"),
   ("APOon", "14VXAhoa1R74vi1ZuiQyGLJrnDMfoFBPJSCpGVz3ondo"),
   ("APPon", "14Z8rQQe2Aza33YgEUmj3g3QGNz8DXLiFPuCnsD1ondo"),
   ("ARMon", "15SsCZqCsM9fZGhTmP4rdJTPT9WGZKazDSsgeQ8ondo"),
   ("ASMLon", "1eLZPRsn8bAKmoxsqDMH9Q2m2k7GMNp6RLSQGm8ondo"),
   ("AVGOon", "1FWZtdWN7y38BSXGzbs8D6Shk88oL9atDNgbVz9ondo"),
   ("AXPon", "1WxT6NdK7uqpfXuKpALxL2n3f7Rq61XXeHA8UM4ondo"),
   ("BABAon", "1zvb9ELBFShBCWKEk5jRTJAaPAwtVt7quEXx1X4ondo"),
   ("BACon", "Wk8gC6iTNp8dqd4ghkJ3h1giiUnyhykwHh7tYWjondo"),
   ("BAon", "1YVZ4LGpq8CAhpdpm3mgy7GgPb83gJczCpxLUQ3ondo"),
   ("BBAIon", "YXE7mph6XhsgnyezkMEcTuohSuWhbLWfwx2Hh6mondo"),
   ("BIDUon", "54CoRF2FYMZNJg9tS36xq5BUcLZ7rju1r59jGc2ondo"),
   ("BILIon", "14kLsQVmc64qZexYuR4XGop9y8BeMkd77pJUm1Rhondo"),
   ("BINCon", "mhZ69E1vDnAsQJXAwarLYSX5tmgeMajXBJ2rXAcondo"),
   ("BLKon", "5H1VpMzRuoNtRbPTRCz35ETtEUtnkt8hJuQb9v7ondo"),
   ("BLSHon", "A9PFmw9Hu8zzxDUoU351pio1E1XWBWBfWnjT9qoondo"),
   ("BMNRon", "MYXqkDYbzr7vjXAz2BapR4AiYRXzoikGirrLoRzondo"),
   ("BTGon", "cBnVXDyZgaaLZM18wAmqsUKnRUFAEJWbq6VuUoaondo"),
   ("BTGOon", "bgJWGuQxyoyFeXwzYZKBmoujVdatGFYPNFnv1a6ondo"),
   ("BZon", "doPqjCxi6UkANkvMz5fSuYGEo5PGppVpTZMeB5vondo"),
   ("CATon", "AErxJJxGbc9cZzZoZepN62BNfg5RXns8tmEc3Zpondo"),
   ("CEGon", "7NWHifsBnn9DimUeNnsHdEXkTZhXmJTiXxcCngBondo"),
   ("CIFRon", "WNZBSkNBNP3Ct1pcFn6Fu4sZQFhnu48EsM9voCEondo"),
   ("CLOAon", "t71FyTYHVkPAb5g48adDHmkVxXYbUuP2eq6jDZLondo"),
   ("CLOIon", "ucQ3VfWAx9pkCN4Kg84zE56FtB4FJN2kQH4ArYYondo"),
   ("CMGon", "5owVsVFSHACQuippFYdLp3qWRobp2EGcwxMmsr6ondo"),
   ("COFon", "R2uDbMtmHq5xSS5SserrovdRKdpiqnVBCd2AHLhondo"),
   ("COINon", "5u6KDiNJXxX4rGMfYT4BApZQC5CuDNrG6MHkwp1ondo"),
   ("Con", "PjtfUiw6Hwd8PZ94EcUw8mBSYxp7SjjzSLeNTDKondo"),
   ("COPon", "X68p9qTpEMkR1TLpXUP2ZJo8PG4Qge2Y2ZLdjA2ondo"),
   ("COPXon", "X7j77hTmjZJbepkXXBcsEapM8qNgdfihkFj6CZ5ondo"),
   ("COSTon", "6btaz134wjHkR8sqhAYrtSM6tavftfxnRvnyMd8ondo"),
   ("CPNGon", "NKyzy31w2J7odLb2CW3Ft4fpKXkW3LBt1pvpkVLondo"),
   ("CRCLon", "6xHEyem9hmkGtVq6XGCiQUGpPsHBaoYuYdFNZa5ondo"),
   ("CRMon", "7D7ukbcnUNYt7Et5vtsDZhAy28MKu9pkHka1Hp9ondo"),
   ("CRWDon", "cdKfoNjbXgnSuxvoajhtH3uixfZhq1YXhQsS1Rwondo"),
   ("CSCOon", "7DWcZE1uVc8m2mf9pV8KNov28ET7HsvHkhrhgr9ondo"),
   ("CVNAon", "FGmUDXqA3AbWfo5b3NUcsvwoUFCF4tr9ea6uercondo"),
   ("CVXon", "7tgKziACteG26VjV5xKufojKxwTgCFyTwmWUmz5ondo"),
   ("DASHon", "83P1gCFBZfGRCwJuBt9juxJKEsZwejJoG66eTZ6ondo"),
   ("DBCon", "td1aY5AvYQuwGD75qNq9aPipMexraN9mQXJwqifondo"),
   ("DEon", "CqQyAZjB9LGFTG95eiadGTkfhd9QA12ProeKsQmondo"),
   ("DGRWon", "gnoSQSNTNZHViqVfxCcPDVxcRA29mrJL7C6JqYLondo"),
   ("DISon", "mJf1xT3suXtkXBCfZcE9oUUuyxkvSgqYBWiX7v1ondo"),
   ("DNNon", "12J2LD3tuLfdiVKnWZMHRMrbnXDY9rM4yqVLUa5yondo"),
   ("EEMon", "916SDKz7y5ZcEZC9CtnQ5Djs1Y8Yv3UAPb6bak8ondo"),
   ("EFAon", "AbvryMGnaba9oADMZk8Vp2Av6MtczsncGyfWaC4ondo"),
   ("EQIXon", "aheEdmuryJU8ymy8LjYheZH5i2BW1UMsfuWQKD2ondo"),
   ("FIGon", "aLDdFsr3VTUQaHFK6yNvQxztvxQ8nxW4AMuSGC7ondo"),
   ("FIGRon", "ZmHxc6Gt27RJKxD2ay6UL4n9yQ7mKAq4XZQUeVhondo"),
   ("Fon", "5hT2o25X9tGXipwhLckaUdgnxrZ6Y8eiUwdhpLeondo"),
   ("FTGCon", "ivBnfPTyuHDNWmMSnbavckhJK6SHZW8h77nZKsEondo"),
   ("FUTUon", "Ao5rKFRQ54W3DKSAtqfhBRPNHewwWRLNLao2JL9ondo"),
   ("GEMIon", "NrTdGMA3ujUvWXkwXyZKnhoByb32KTjRh5Vo47yondo"),
   ("GEon", "aTBfDuLRqYHBiG82bHA7DzwjSDTFre2dRtGH3S5ondo"),
   ("GLDon", "hWfiw4mcxT8rnNFkk6fsCQSxoxgZ9yVhB6tyeVcondo"),
   ("GMEon", "aznKt8v32CwYMEcTcB4bGTv8DXWStCpHrcCtyy7ondo"),
   ("GOOGLon", "bbahNA5vT9WJeYft8tALrH1LXWffjwqVoUbqYa1ondo"),
   ("GRABon", "m9GcsVgdjaL3KsdtSFHimnhtsUMpTHkjtwEG4Tzondo"),
   ("GRNDon", "Gc1aT3ay7FXL3qdAW7cNSXYPDsGavy7qiACuxwxondo"),
   ("GSon", "BchJRy2snmhJZf3rQ9LJ3ePs2BGfYgfvQNo31d2ondo"),
   ("HDon", "MtEXKVN3Pcggy8MPA3eJr15H6SK3RXheScqj9qtondo"),
   ("HIMSon", "bdh3njeo19d2TBLAKTGvCWdSoArfVw8uZBAJHY4ondo"),
   ("HOODon", "BVdXGvmgi6A9oAiwWvBvP76fyTqcCNRJMM7zMN6ondo"),
   ("HYGon", "c5ug15fwZRfQhhVa6LHscFY33ebVDHcVCezYpj7ondo"),
   ("IAUon", "M77ZvkZ8zW5udRbuJCbuwSwavRa7bGAZYMTwru8ondo"),
   ("IBMon", "C8bZkgSxXkyT1RgxByp2teJ24hgimPLoyEYoNa9ondo"),
   ("IEFAon", "C9J9vZ8N79GzzxFoRkPWCkGtMKU8akg4FhUk4r9ondo"),
   ("IEMGon", "cdVNL7wK8mf1UCDqM6zdrziRv4hmvqWhXeTcck2ondo"),
   ("IJHon", "cfPLN9WXD2BTkbZhRZMVXPmVSiRo44hJWRtnaC8ondo"),
   ("INTCon", "cJpUMp5R7rZ6fGeLHbHhrRuJzK9mkyKDjZqNpT3ondo"),
   ("INTUon", "CozoH5HBTyyeYSQxHcWpGzd4Sq5XBaKzBzvTtN3ondo"),
   ("IRENon", "13QHuepdhtJ3urNsV9i1hdL8nQoca2G7ZaLzb5FYondo"),
   ("ISRGon", "1MGRpPrkhEsCm2GCWD3rsvEU77xTTLAzfKXeFgFondo"),
   ("ITOTon", "CPWkMURVvcnX8hGjqCTb8i5LkzV3VSvyk7SeJi8ondo"),
   ("IVVon", "CqW2pd6dCPG9xKZfAsTovzDsMmAGKJSDBNcwM96ondo"),
   ("IWFon", "dSHPFuMMjZqt7xDYGWrexXTSkdEZAiZngqymQF2ondo"),
   ("IWMon", "dvj2kKFSyjpnyYSYppgFdAEVfgjMEoQGi9VaV23ondo"),
   ("IWNon", "DX7g7WNjDpVzNK9CG81v7wb6ZbiNzYfkdzH2Xs5ondo"),
   ("JAAAon", "KZtqx9BJbpcGY7vdzhqPXM3ECKChxE5YhXaDiwRondo"),
   ("JDon", "E1aUS5nyv7kaBzdQzPVJW5zfaMgoUJpKYzdnFS2ondo"),
   ("JNJon", "KUXt7LzHWSQXp5eyqMZRxWjAP6yM8BUh4LRHwiwondo"),
   ("JPMon", "E5Gczsavxcomqf6Cw1sGCKLabL1xYD2FzKxVoB4ondo"),
   ("KLACon", "149o8ppQf9SzKCKXZ4v3dzHkwumvtQSRzSEkr29uondo"),
   ("KOon", "e6G4pfFcrdKxJuZ4YXixRFfMbpMvgXG2Mjcus71ondo"),
   ("LINon", "Edik9MoFp8LAXS9HNu2gRFyihwYqDqv4ZmNmVT9ondo"),
   ("LIon", "v12TwfofSbvVqQ5N5KGG4d3J8rtEi4BjGfn2apyondo"),
   ("LLYon", "eGGxZwNSfuNKRqQLKaz2hc4QkA2mau7skyxPdj7ondo"),
   ("LMTon", "EoReHwUnGGekbXFHLj5rbCVKiwWqu32GrETMfw4ondo"),
   ("LOWon", "edLdFJVVR532qhcrNTJjLAmhmyV7NsctbWVokMBondo"),
   ("LRCXon", "wFJoeEYpKg9oRhyJy6BWTT3J95gmXBLvoeikDQNondo"),
   ("MAon", "EsVHcyRxXFJCLMiuYLWhoDygrNe1BJGpYeZ17X7ondo"),
   ("MARAon", "ETCJUmuhs5aY62xgEVWCZ5JR8KPdeXUaJz3LuC5ondo"),
   ("MCDon", "EUbJjmDt8JA222M91bVLZs211siZ2jzbFArH9N3ondo"),
   ("MELIon", "EWwdgGshGngcMpDV34pWZRSu5bkAuiKuKTTHKQ8ondo"),
   ("METAon", "fDxs5y12E7x7jBwCKBXGqt71uJmCWsAQ3Srkte6ondo"),
   ("MPon", "XwFm5GiKPVTvPiEbQpdc6vJbFEpsUXRMf6TcSxnondo"),
   ("MRKon", "bn1fb8dwzafGePqNPrM8m8cbAKQiFqeEPuZkPySondo"),
   ("MRNAon", "14VP7DvCAdBCc5XGNZkPt6zhtPzJrWWS64Koxtxyondo"),
   ("MRVLon", "FovBwhoV5KQjZCdhoM6jgXYwXLX3F8vgAfvmLH7ondo"),
   ("MSFTon", "FRmH6iRkMr33DLG6zVLR7EM4LojBFAuq6NtFzG6ondo"),
   ("MSTRon", "FSz4ouiqXpHuGPcpacZfTzbMjScoj5FfzHkiyu2ondo"),
   ("MTZon", "R3ywbVQ5t8LNmjQsn2Ngv43dSqyZscQwNag9G3Eondo"),
   ("MUon", "Fz9edBpaURPPzpKVRR1A8PENYDEgHqwx5D5th28ondo"),
   ("NEEon", "t7eN6cGwRMFaZvsNW2SmVwkedmHtDdrxA4ycNE5ondo"),
   ("NFLXon", "g4KnPrxPLeeKkwvDmZFMtYQPM64eHeShbD55vK6ondo"),
   ("NIKLon", "V8LRV7kWjrx6Prke9oHEHNUiR122BVtyuPciTCTondo"),
   ("NIOon", "yQ37dFiGAbzrb2FRAEhGNzRy5zFfoYGWYhAepFEondo"),
   ("NKEon", "g646pcdG2Rt5DH9WZzL7VVnVDWCCMTTrnktwE74ondo"),
   ("NOWon", "G7pTVoSECz5RQWubEnTP7AC83KHUsSyoiqYR1R2ondo"),
   ("NTESon", "YeK2TdPtGLAme3Phg4pb1GBN2YxKgX5UNVyD4asondo"),
   ("NVDAon", "gEGtLTPNQ7jcg25zTetkbmF7teoDLcrfTnQfmn2ondo"),
   ("NVOon", "GeV7S8vjP8qdYZpdGv2Xi6e7MUMCk8NAAp2z7g5ondo"),
   ("OKLOon", "m6oDLvJT7rY7M1TxuLWP3pWmAPg2cCWDQR1NKiEondo"),
   ("ONDSon", "7qy1j4Mechfyr6AST3djH4vk4kiEYC2cjEytXdondo"),
   ("ONon", "13qtwy5fZi9Przz14pzo9xqFSr8QHmLyUpUCvP1xondo"),
   ("OPENon", "ou1uE526v7zmUYP2qCb2LJgfXAyWAtWS9SETtr8ondo"),
   ("OPRAon", "gbHFTMkuMQUy5xrgoCBdaQ2XYvNyjWAYcnRPh9Condo"),
   ("ORCLon", "GmDADFpfwjfzZq9MfCafMDTS69MgVjtzD7Fd9a4ondo"),
   ("OSCRon", "ThwGDsXZ6iKubWuEQjmDxGwF3bUERDGbBXvcbjFondo"),
   ("OXYon", "1GNFMryQ6c9ZpMhgNimmsbtgYM21qnBJgRAFoNiondo"),
   ("PALLon", "P7hTXnKk2d2DyqWnefp5BSroE1qjjKpKxg9SxQqondo"),
   ("PANWon", "M7hVQomhw4Q2D2op3HvBrZjHu9SryjNvD5haEZ1ondo"),
   ("PBRon", "GRciFCqJ5y2hbiD6U5mGkohY65BZTXGuGUrCqf7ondo"),
   ("PCGon", "UP5s1srLaHDc4SwJqLPa3A48x5R7ofN3hZWxWEZondo"),
   ("PDBCon", "M6agiXbNgy8Xon9ngiW4ZDPbMFcNCTMkMMkshZyondo"),
   ("PDDon", "PnjETBCLC318DRejo9cMQKAmET9PvW8AEFGWMNtondo"),
   ("PEPon", "gud6b3fYekjhMG5F818BALwbg2vt4JKoow59Md9ondo"),
   ("PFEon", "Gwh9fPsX1qWATXy63vNaJnAFfwebWQtZaVmPko6ondo"),
   ("PGon", "GZ8v4NdSG7CTRZqHMgNsTPRULeVi8CpdWd9wZY8ondo"),
   ("PINSon", "sxyg1VTSzy5zYANUK7hntNtmFAWoXGJq95AcHuVondo"),
   ("PLTRon", "HfsnTS5qtdStwec9DfBrunRqnAMYMMz1kjv9Hu9ondo"),
   ("PLUGon", "TnfswqdE1jAJ8sfnf5J7kSVLEH1cfpAYZ8MWmKfondo"),
   ("PSQon", "qKtU9A7ij34XmtxaSzYfxCpkgAZzzFsqnUb2kW2ondo"),
   ("PYPLon", "hM7B3UQTTR81mS27SxDDPzBbjejmo8fnpFjzgv9ondo"),
   ("QBTSon", "hqJXutLF6f7DxStrWCrnZDfXzbNTZmvi3KheVi6ondo"),
   ("QCOMon", "hrmX7MV5hifoaBVjnrdpz698yABxrbBNAcWtWo9ondo"),
   ("QQQon", "HrYNm6jTQ71LoFphjVKBTdAE4uja7WsmLG8VxB8ondo"),
   ("RDDTon", "HXFrTf9v9NdjGUTnx4sojR3Cf92hoBsQFUxKTN7ondo"),
   ("REMXon", "tiitb2Z1HtpB2DpVr6V7tdCFS3jmTinLeuGj9EVondo"),
   ("RGTIon", "dwEPNKQab3iwRmjGvZPXhAmws1W5NsQGwuXwi8oondo"),
   ("RIOTon", "i6f3DvZBuLpnGSqS8x6WPeStJ7jNe5KewD6afD5ondo"),
   ("RIVNon", "AXRsYFt7TXNQ3DcY6BkvRgPV6VsYMURyDtaeudjondo"),
   ("RTXon", "12BvLZtzjdssAycxPeBQUjukhmgQpULAvy6SroYdondo"),
   ("SBETon", "iLDu2jjp2i3Uqc2Vm7K7GLiUj3hR4Un49MtD7c4ondo"),
   ("SBUXon", "iPFqjcZQTNMNXA4kbShbMhfAVD8yr8Uq9UtXMV6ondo"),
   ("SCHWon", "cnc6M1zXLdrGR5LAQVcaJDfgezMiVWNtGQsVy1Kondo"),
   ("SGOVon", "HjrN6ChZK2QRL6hMXayjGPLFvxhgjwKEy135VRjondo"),
   ("SHOPon", "ivdDracs2s7jCP698dJXKSEQdVrNj9hasJL1Uq1ondo"),
   ("SLVon", "iy11ytbSGcUnrjE6Lfv78TFqxKyUESfku1FugS9ondo"),
   ("SMCIon", "jLca79XzcewRuBZyaJxVxuKpUHcEix1X4CP1RP9ondo"),
   ("SNAPon", "a2cXfonVgQ6cKB4Lm8YZsPry39VZSA562bwmRSiondo"),
   ("SNOWon", "JmFLCBwoNvcXy6B2VqABg6m784ubkXpaEx3p7S5ondo"),
   ("SOFIon", "mqL8yXQpeSvc7NgrAtLLPtRvUiWyLoG5RWLv16iondo"),
   ("SOon", "aKzjn2ZdWySSGPSSDTY2HUpcSCmemSahTXihrpyondo"),
   ("SOUNon", "vE2qArmjto6VfeMngyGAnzp2ipLYeXsxiARDnnXondo"),
   ("SPGIon", "JrTYw7A9jihX5TwpRStYviEbsYf2X2VJpZ13719ondo"),
   ("SPOTon", "jzCvs2Pk8tDcfsFRqnEMjurgaQW4iQfEkandUR8ondo"),
   ("SPYon", "k18WJUULWheRkSpSquYGdNNmtuE2Vbw1hpuUi92ondo"),
   ("SQQQon", "D1tu7Fnm3cCpKyyPXrqm5GXShPqMj7a2SEjjq9fondo"),
   ("TCOMon", "9PMjLqd8zPdKkJUXarnit5t7tPL3cCscwHzy7ATondo"),
   ("TIPon", "k6BPp2Xmf2TYgrZiUyWfUoZBKeqaDbvPoAVgSx2ondo"),
   ("TLNon", "RTb54gpqAx6RpLAHRGnqQ3ciQ845CHqhg21ZzEJondo"),
   ("TLTon", "KaSLSWByKy6b9FrCYXPEJoHmLpuFZtTCJk1F1Z9ondo"),
   ("TMon", "kbmF7ERJWMaaDswMprrH9gHSLya5D2RMBNgKqg3ondo"),
   ("TMOon", "T699bgtXQw4CJ59rQ4VzLsupVQUzoL5RmuhHnKrondo"),
   ("TMUSon", "pDY4GPJfZcNETPG7myXeafQfgJqqVkn81bMYDyfondo"),
   ("Ton", "WKMZummev5UcXz5nNKQZvTD6QjNSM2X58uwmDReondo"),
   ("TQQQon", "14W1itEkV7k1W819mLSknFTaMmkCtPokbF2tRkPUondo"),
   ("TSLAon", "KeGv7bsfR4MheC1CkmnAVceoApjrkvBhHYjWb67ondo"),
   ("TSMon", "keybg184d4vyXeQdFqs4o99YsMg7xBthxTJ6Ky3ondo"),
   ("TXNon", "81xLFvCzFaUM3KDxSHC75pXu3RPCeSeCbmGBY8aondo"),
   ("UBERon", "KJNeFW3kk3ycPjXpC6cbuyckjeYHacc2ekhtAi5ondo"),
   ("UNHon", "kPBGL8vAwKN3UGmr9cjkM2dU79SC3nzTC9yu7F8ondo"),
   ("USFRon", "o6U1Sm6Vd7EofMyCrL28mrp2QLzgYGgjveHiEQ5ondo"),
   ("USOon", "rpydAzWdCy85HEmoQkH5PVxYtDYQWjmLxgHHadxondo"),
   ("Von", "kxEW4oJL75K37VeXaZF1ynbHQATQwhECQKN1374ondo"),
   ("VRTon", "MkN2TZSYTFBdMRLf9EVcfhstTwnazH8knd9hpepondo"),
   ("VSTon", "h6MW8GFpfzxFa1JNn6hZNnBF3t4fj9SHAXKy6LXondo"),
   ("VTIon", "jCCU4GwukjNxAXJowG2S4KCrr5g6YyUB61WHYvGondo"),
   ("VTVon", "KuiYLPVq65qixD9TgvxBC576C4gG6vVTCdbh2zFondo"),
   ("VZon", "igu1coP6n3GPaWmbd8J9Z7UAyLpV254uQFFNfydondo"),
   ("WFCon", "L6ZE5qCpVVSqLePz64CrwkgyWoPF9M7tB8BeFH4ondo"),
   ("WMTon", "LZddqAqKqJW9oMZSjTxCUmbmzBRQtv9gMkD9hZ3ondo"),
   ("WULFon", "exYfSJt6Fgfhfnp3bAD4roYy97hLF9npjYaLyEXondo"),
   ("XOMon", "qCYD74QnXzd9pzv6pGHQKJVwoibL6sNcPQDnpDiondo"),
   ("XYZon", "BWxe2FVciUbwrCUZQPUKiREBh5LmVa5AiUqNLAkondo")]

def ondo_gm_program_id : Pubkey := Pubkey.base58 ONDO_GM_PROGRAM_ID

def jupiter_order_engine_program_id : Pubkey := Pubkey.base58 JUPITER_ORDER_ENGINE_PROGRAM_ID

def admin_minter : Pubkey := Pubkey.base58 ADMIN_MINTER

def usdc_mint : Pubkey := Pubkey.base58 USDC_MINT

def spl_token_program_id : Pubkey := Pubkey.base58 SPL_TOKEN_PROGRAM_ID

def token_2022_program_id : Pubkey := Pubkey.base58 TOKEN_2022_PROGRAM_ID

/-- Modelled from the spec (section 6, external collaborators):
`spl_associated_token_account::id()`, the fixed program id of the external
associated-token-account program. -/
def spl_associated_token_account_id : Pubkey :=
  Pubkey.base58 "ATokenGPvbdGVxr1b2hvZbsiqW5xWH25efTNsLJA8knL"

/-- Modelled from the spec (section 6, external collaborators):
`solana_sdk::system_program::id()`. -/
def system_program_id : Pubkey := Pubkey.base58 "11111111111111111111111111111111"

/-- src/constants.rs `is_authorized_solver`.  The source base58-encodes the
key and compares the string against `AUTHORIZED_SOLVERS`; since base58
encoding of a 32-byte key is injective, this is the same as comparing the key
against the keys the literals denote, which is how we state it over the
abstract `Pubkey` type. -/
def is_authorized_solver (pubkey : Pubkey) : Bool :=
  AUTHORIZED_SOLVERS.any (fun a => pubkey == Pubkey.base58 a)

/-- src/constants.rs `is_gm_token` (same base58-string comparison as
`is_authorized_solver`). -/
def is_gm_token (pubkey : Pubkey) : Bool :=
  GM_TOKENS.any (fun p => pubkey == Pubkey.base58 p.2)

/-- src/constants.rs `get_gm_token_symbol`. -/
def get_gm_token_symbol (pubkey : Pubkey) : Option String :=
  (GM_TOKENS.find? (fun p => pubkey == Pubkey.base58 p.2)).map (fun p => p.1)

/-! ## src/types.rs -/

/-- src/types.rs `GmSimulatorError`. -/
inductive GmSimulatorError where
  | NotJupiterRfq
  | NotJupiterFill
  | TakerNotReceivingGmToken
  | UnauthorizedMaker (pubkey : Pubkey)
  | InstructionParseError (msg : String)
  | InvalidAccountIndex
  | MissingAccount
  | EmptyTransaction
deriving DecidableEq

/-- src/types.rs `GmTradeInfo`. -/
structure GmTradeInfo where
  maker : Pubkey
  taker : Pubkey
  gm_token_mint : Pubkey
  gm_token_symbol : String
  gm_token_amount : Nat
  maker_output_account : Pubkey
  expire_at : Int
deriving DecidableEq

/-- src/types.rs `GmCheckResult`. -/
structure GmCheckResult where
  use_gm_bundle_sim : Bool
  trade_info : Option GmTradeInfo
deriving DecidableEq

/-- src/types.rs `GmCheckResult::not_gm_trade`. -/
def GmCheckResult.not_gm_trade : GmCheckResult :=
  { use_gm_bundle_sim := false, trade_info := none }

/-- src/types.rs `GmCheckResult::gm_trade`. -/
def GmCheckResult.gm_trade (info : GmTradeInfo) : GmCheckResult :=
  { use_gm_bundle_sim := true, trade_info := some info }

/-! ## src/parser.rs -/

/-- solana-sdk `CompiledInstruction`: a program reference (index into the
message account-key table), referenced-account slots (indices into the same
table, u8 in the source) and an opaque byte payload. -/
structure CompiledInstruction where
  program_id_index : Nat
  accounts : List Nat
  data : List Nat
deriving DecidableEq

/- src/parser.rs `account_indices` module. -/
namespace account_indices

def TAKER : Nat := 0

def MAKER : Nat := 1

def MAKER_OUTPUT_ATA : Nat := 5

def OUTPUT_MINT : Nat := 8

end account_indices

/-- src/parser.rs `is_jupiter_fill_instruction`: the program reference must
resolve through the account-key table to the given program id, the payload
must be at least 8 bytes, and its first 8 bytes must equal the "fill"
discriminator. -/
def is_jupiter_fill_instruction (instruction : CompiledInstruction) (program_id : Pubkey)
    (account_keys : List Pubkey) : Bool :=
  match account_keys.get? instruction.program_id_index with
  | none => false
  | some ix_program_id =>
    if ix_program_id != program_id then false
    else if instruction.data.length < 8 then false
    else instruction_discriminator "fill" == instruction.data.take 8

/-- The error message built by src/parser.rs when the payload is shorter than
32 bytes. -/
def too_short_msg (n : Nat) : String :=
  "Instruction data too short: expected at least 32 bytes, got " ++ toString n

/-- src/parser.rs: the `get_account` closure inside `parse_fill_for_gm_trade`.
Slot `idx` of the instruction's referenced accounts is looked up
(`InvalidAccountIndex` if absent), then resolved through the account-key
table (`MissingAccount` if out of range). -/
def get_account (instruction : CompiledInstruction) (account_keys : List Pubkey)
    (idx : Nat) : Except GmSimulatorError Pubkey :=
  match instruction.accounts.get? idx with
  | none => .error .InvalidAccountIndex
  | some account_idx =>
    match account_keys.get? account_idx with
    | none => .error .MissingAccount
    | some pk => .ok pk

/-- Little-endian decoding of a byte list into a natural number
(Rust `u64::from_le_bytes` on an 8-byte slice). -/
def u64_from_le_bytes (bytes : List Nat) : Nat :=
  bytes.foldr (fun b acc => b + 256 * acc) 0

/-- Rust `u64::to_le_bytes`. -/
def u64_to_le_bytes (n : Nat) : List Nat :=
  [n % 256, n / 256 % 256, n / 65536 % 256, n / 16777216 % 256,
   n / 4294967296 % 256, n / 1099511627776 % 256,
   n / 281474976710656 % 256, n / 72057594037927936 % 256]

/-- Rust `i64::from_le_bytes` on an 8-byte slice: two's-complement
reinterpretation of the unsigned little-endian value. -/
def i64_from_le_bytes (bytes : List Nat) : Int :=
  let u := u64_from_le_bytes bytes
  if u < 9223372036854775808 then (u : Int) else (u : Int) - 18446744073709551616

/-- src/parser.rs `parse_fill_for_gm_trade`. -/
def parse_fill_for_gm_trade (instruction : CompiledInstruction)
    (account_keys : List Pubkey) : Except GmSimulatorError (Option GmTradeInfo) :=
  if instruction.data.length < 32 then
    .error (.InstructionParseError (too_short_msg instruction.data.length))
  else
    match get_account instruction account_keys account_indices.MAKER with
    | .error e => .error e
    | .ok maker =>
    match get_account instruction account_keys account_indices.TAKER with
    | .error e => .error e
    | .ok taker =>
    match get_account instruction account_keys account_indices.MAKER_OUTPUT_ATA with
    | .error e => .error e
    | .ok maker_output_account =>
    match get_account instruction account_keys account_indices.OUTPUT_MINT with
    | .error e => .error e
    | .ok output_mint =>
    if !is_authorized_solver maker then
      .error (.UnauthorizedMaker maker)
    else if !is_gm_token output_mint then
      .ok none
    else
      let output_amount := u64_from_le_bytes ((instruction.data.drop 16).take 8)
      let expire_at := i64_from_le_bytes ((instruction.data.drop 24).take 8)
      let gm_token_symbol := (get_gm_token_symbol output_mint).getD "GM"
      .ok (some
        { maker := maker, taker := taker, gm_token_mint := output_mint,
          gm_token_symbol := gm_token_symbol, gm_token_amount := output_amount,
          maker_output_account := maker_output_account, expire_at := expire_at })

/-! ## src/mint_instruction.rs -/

/-- solana-sdk `AccountMeta`. -/
structure AccountMeta where
  pubkey : Pubkey
  is_signer : Bool
  is_writable : Bool
deriving DecidableEq

/-- solana-sdk `AccountMeta::new`: writable, signer as given. -/
def AccountMeta.new (pubkey : Pubkey) (signer : Bool) : AccountMeta :=
  { pubkey := pubkey, is_signer := signer, is_writable := true }

/-- solana-sdk `AccountMeta::new_readonly`. -/
def AccountMeta.new_readonly (pubkey : Pubkey) (signer : Bool) : AccountMeta :=
  { pubkey := pubkey, is_signer := signer, is_writable := false }

/-- solana-sdk `Instruction`: a program id, ordered account references with
signer/writable flags, and a byte payload. -/
structure Instruction where
  program_id : Pubkey
  accounts : List AccountMeta
  data : List Nat
deriving DecidableEq

/-- src/mint_instruction.rs `MINT_GM_DISCRIMINATOR`, a hardcoded constant
verified against the on-chain IDL. -/
def MINT_GM_DISCRIMINATOR : List Nat := [117, 223, 58, 111, 44, 36, 16, 43]

/-- src/mint_instruction.rs `MINT_AUTHORITY_SEED` = b"mint_authority". -/
def MINT_AUTHORITY_SEED : List Nat := strBytes "mint_authority"

/-- src/mint_instruction.rs `MINTER_ROLE_GMTOKEN_SEED` = b"MinterRoleGMToken". -/
def MINTER_ROLE_GMTOKEN_SEED : List Nat := strBytes "MinterRoleGMToken"

/-- src/mint_instruction.rs `ORACLE_SANITY_CHECK_SEED` = b"sanity_check". -/
def ORACLE_SANITY_CHECK_SEED : List Nat := strBytes "sanity_check"

/-- src/mint_instruction.rs `USDON_MANAGER_STATE_SEED` = b"usdon_manager". -/
def USDON_MANAGER_STATE_SEED : List Nat := strBytes "usdon_manager"

/-- src/mint_instruction.rs `build_mock_mint_gm_instruction`. -/
def build_mock_mint_gm_instruction (gm_token_mint : Pubkey) (destination_owner : Pubkey)
    (amount : Nat) : Instruction :=
  let program_id := ondo_gm_program_id
  let minter := admin_minter
  let token_program := token_2022_program_id
  let authority_role_account :=
    find_program_address_seed_key MINTER_ROLE_GMTOKEN_SEED minter program_id
  let oracle_sanity_check :=
    find_program_address_seed_key ORACLE_SANITY_CHECK_SEED gm_token_mint program_id
  let mint_authority := find_program_address_seed MINT_AUTHORITY_SEED program_id
  let usdon_manager_state := find_program_address_seed USDON_MANAGER_STATE_SEED program_id
  let destination_ata :=
    get_associated_token_address_with_program_id destination_owner gm_token_mint token_program
  let data := MINT_GM_DISCRIMINATOR ++ u64_to_le_bytes amount
  let accounts :=
    [AccountMeta.new minter true,
     AccountMeta.new_readonly minter true,
     AccountMeta.new_readonly destination_owner false,
     AccountMeta.new_readonly authority_role_account false,
     AccountMeta.new oracle_sanity_check false,
     AccountMeta.new_readonly mint_authority false,
     AccountMeta.new gm_token_mint false,
     AccountMeta.new destination_ata false,
     AccountMeta.new_readonly usdon_manager_state false,
     AccountMeta.new_readonly token_program false,
     AccountMeta.new_readonly spl_associated_token_account_id false,
     AccountMeta.new_readonly system_program_id false]
  { program_id := program_id, accounts := accounts, data := data }

/-- src/mint_instruction.rs `build_mock_mint_gm_instruction_with_ata`. -/
def build_mock_mint_gm_instruction_with_ata (gm_token_mint : Pubkey)
    (destination_ata : Pubkey) (destination_owner : Pubkey) (amount : Nat) : Instruction :=
  let program_id := ondo_gm_program_id
  let minter := admin_minter
  let token_program := token_2022_program_id
  let authority_role_account :=
    find_program_address_seed_key MINTER_ROLE_GMTOKEN_SEED minter program_id
  let oracle_sanity_check :=
    find_program_address_seed_key ORACLE_SANITY_CHECK_SEED gm_token_mint program_id
  let mint_authority := find_program_address_seed MINT_AUTHORITY_SEED program_id
  let usdon_manager_state := find_program_address_seed USDON_MANAGER_STATE_SEED program_id
  let data := MINT_GM_DISCRIMINATOR ++ u64_to_le_bytes amount
  let accounts :=
    [AccountMeta.new minter true,
     AccountMeta.new_readonly minter true,
     AccountMeta.new_readonly destination_owner false,
     AccountMeta.new_readonly authority_role_account false,
     AccountMeta.new oracle_sanity_check false,
     AccountMeta.new_readonly mint_authority false,
     AccountMeta.new gm_token_mint false,
     AccountMeta.new destination_ata false,
     AccountMeta.new_readonly usdon_manager_state false,
     AccountMeta.new_readonly token_program false,
     AccountMeta.new_readonly spl_associated_token_account_id false,
     AccountMeta.new_readonly system_program_id false]
  { program_id := program_id, accounts := accounts, data := data }

/-- src/mint_instruction.rs `get_gm_token_ata`. -/
def get_gm_token_ata (owner : Pubkey) (gm_token_mint : Pubkey) : Pubkey :=
  get_associated_token_address_with_program_id owner gm_token_mint token_2022_program_id

/-! ## src/simulator.rs -/

/-- solana-sdk legacy `Message`, restricted to the two fields the simulator
reads: the flat account-key table and the compiled instruction list.  (The
header and recent blockhash play no role in classification.) -/
structure Message where
  account_keys : List Pubkey
  instructions : List CompiledInstruction
deriving DecidableEq

/-- solana-sdk `Transaction`, restricted to its message. -/
structure Transaction where
  message : Message
deriving DecidableEq

/-- solana-sdk v0 `Message` (static account keys only, as the source notes
that lookup-table keys are not consulted). -/
structure MessageV0 where
  account_keys : List Pubkey
  instructions : List CompiledInstruction
deriving DecidableEq

/-- solana-sdk `VersionedMessage`. -/
inductive VersionedMessage where
  | Legacy (msg : Message)
  | V0 (msg : MessageV0)
deriving DecidableEq

/-- solana-sdk `VersionedTransaction`, restricted to its message. -/
structure VersionedTransaction where
  message : VersionedMessage
deriving DecidableEq

/-- The classifier expression inside src/simulator.rs `check_gm_trade_message`
(and its v0 twin): the first instruction in list order satisfying
`is_jupiter_fill_instruction` for the Jupiter Order Engine program. -/
def find_fill_instruction (instructions : List CompiledInstruction)
    (account_keys : List Pubkey) : Option CompiledInstruction :=
  instructions.find?
    (fun ix => is_jupiter_fill_instruction ix jupiter_order_engine_program_id account_keys)

/-- src/simulator.rs `check_gm_trade_message`. -/
def check_gm_trade_message (message : Message) :
    Except GmSimulatorError GmCheckResult :=
  if message.instructions.isEmpty then
    .error .EmptyTransaction
  else
    match find_fill_instruction message.instructions message.account_keys with
    | none => .ok GmCheckResult.not_gm_trade
    | some instruction =>
      match parse_fill_for_gm_trade instruction message.account_keys with
      | .error e => .error e
      | .ok (some trade_info) => .ok (GmCheckResult.gm_trade trade_info)
      | .ok none => .ok GmCheckResult.not_gm_trade

/-- src/simulator.rs `check_gm_trade`. -/
def check_gm_trade (transaction : Transaction) :
    Except GmSimulatorError GmCheckResult :=
  check_gm_trade_message transaction.message

/-- src/simulator.rs `check_gm_trade_versioned_message` (the V0 arm repeats
the legacy logic over the static account keys). -/
def check_gm_trade_versioned_message (message : VersionedMessage) :
    Except GmSimulatorError GmCheckResult :=
  match message with
  | .Legacy legacy_msg => check_gm_trade_message legacy_msg
  | .V0 v0_msg =>
    if v0_msg.instructions.isEmpty then
      .error .EmptyTransaction
    else
      match find_fill_instruction v0_msg.instructions v0_msg.account_keys with
      | none => .ok GmCheckResult.not_gm_trade
      | some instruction =>
        match parse_fill_for_gm_trade instruction v0_msg.account_keys with
        | .error e => .error e
        | .ok (some trade_info) => .ok (GmCheckResult.gm_trade trade_info)
        | .ok none => .ok GmCheckResult.not_gm_trade

/-- src/simulator.rs `check_gm_trade_versioned`. -/
def check_gm_trade_versioned (transaction : VersionedTransaction) :
    Except GmSimulatorError GmCheckResult :=
  check_gm_trade_versioned_message transaction.message

/-- Modelled from the spec (section 6, external collaborators): the
spl-associated-token-account crate's
`create_associated_token_account_idempotent` instruction builder, assumed
correct.  Its wire shape (program id, account order, the single-byte
idempotent discriminant `1`) is that of the external program's documented
interface. -/
def create_associated_token_account_idempotent (funding_address : Pubkey)
    (wallet_address : Pubkey) (token_mint_address : Pubkey)
    (token_program_id : Pubkey) : Instruction :=
  let associated_account := get_associated_token_address_with_program_id
    wallet_address token_mint_address token_program_id
  { program_id := spl_associated_token_account_id,
    accounts :=
      [AccountMeta.new funding_address true,
       AccountMeta.new associated_account false,
       AccountMeta.new_readonly wallet_address false,
       AccountMeta.new_readonly token_mint_address false,
       AccountMeta.new_readonly system_program_id false,
       AccountMeta.new_readonly token_program_id false],
    data := [1] }

/-- Modelled from the spec (section 6, external collaborators): a recent
blockhash, opaque to this core. -/
abbrev Hash : Type := Nat

/-- Modelled from the spec (section 4.5): the assembled unsigned message.
solana-sdk `Message::new_with_blockhash` compiles a list of `Instruction`s;
compilation preserves the number, the order and the payload of the
instructions, so the message is modelled at the instruction level. -/
structure AssembledMessage where
  instructions : List Instruction
  payer : Option Pubkey
  recent_blockhash : Hash
deriving DecidableEq

/-- Modelled from the spec (section 4.5): solana-sdk
`Transaction::new_unsigned`, an unsigned wrapper around the message. -/
structure AssembledTransaction where
  message : AssembledMessage
deriving DecidableEq

/-- src/simulator.rs `build_mock_mint_transaction`. -/
def build_mock_mint_transaction (trade_info : GmTradeInfo) (recent_blockhash : Hash) :
    AssembledTransaction :=
  let token_program := token_2022_program_id
  let usdc := usdc_mint
  let minter := admin_minter
  let create_taker_gm_ata_ix := create_associated_token_account_idempotent
    minter trade_info.taker trade_info.gm_token_mint token_program
  let create_maker_gm_ata_ix := create_associated_token_account_idempotent
    minter trade_info.maker trade_info.gm_token_mint token_program
  let create_taker_usdc_ata_ix := create_associated_token_account_idempotent
    minter trade_info.taker usdc spl_token_program_id
  let create_maker_usdc_ata_ix := create_associated_token_account_idempotent
    minter trade_info.maker usdc spl_token_program_id
  let mint_ix := build_mock_mint_gm_instruction
    trade_info.gm_token_mint trade_info.maker trade_info.gm_token_amount
  { message :=
    { instructions :=
        [create_taker_gm_ata_ix, create_maker_gm_ata_ix,
         create_taker_usdc_ata_ix, create_maker_usdc_ata_ix, mint_ix],
      payer := some minter,
      recent_blockhash := recent_blockhash } }

/-! ## Sample inputs used by witness instantiations -/

/-- Sample recognized GM mint (the "AAPLon" entry of `GM_TOKENS`). -/
def sampleGmMint : Pubkey := Pubkey.base58 "123mYEnRLM2LLYsJW3K6oyYh8uP1fngj732iG638ondo"

/-- Sample authorized solver (first entry of `AUTHORIZED_SOLVERS`). -/
def sampleSolver : Pubkey := Pubkey.base58 "DSqMPMsMAbEJVNuPKv1ZFdzt6YvJaDPDddfeW7ajtqds"

/-- Sample taker wallet, not in any allow list. -/
def sampleTaker : Pubkey := Pubkey.base58 "TakerWallet1111111111111111111111111111111"

/-- Sample address in no allow list, used as an unauthorized maker. -/
def sampleOutsider : Pubkey := Pubkey.base58 "RandomUnlistedAddress111111111111111111111"

/-- Sample maker-output token account. -/
def sampleAta : Pubkey := Pubkey.base58 "PrecomputedDestinationAccount1111111111111"

/-- Sample unrecognized mint. -/
def sampleOtherMint : Pubkey := Pubkey.base58 "SomeOtherMint11111111111111111111111111111"

/-- Payload of a well-formed fill: the "fill" tag followed by 24 zero bytes
(input amount 0, output amount 0, expiry 0), 32 bytes in total. -/
def sampleFillData : List Nat :=
  [168, 96, 183, 163, 92, 10, 40, 160] ++ List.replicate 24 0

/-- Account-key table for witness messages: slot 0 is the Jupiter Order
Engine program, the rest are sample wallets/mints. -/
def sampleKeys : List Pubkey :=
  [jupiter_order_engine_program_id, sampleTaker, sampleSolver, sampleAta,
   sampleGmMint, sampleOutsider, sampleOtherMint]

/-- A well-formed authorized GM fill: taker at slot 0, solver maker at
slot 1, maker output at slot 5, GM mint at slot 8. -/
def goodFillIx : CompiledInstruction :=
  { program_id_index := 0, accounts := [1, 2, 0, 0, 0, 3, 0, 0, 4], data := sampleFillData }

/-- Same as `goodFillIx` but with an unlisted maker at slot 1. -/
def unauthorizedFillIx : CompiledInstruction :=
  { program_id_index := 0, accounts := [1, 5, 0, 0, 0, 3, 0, 0, 4], data := sampleFillData }

/-- Same as `goodFillIx` but with an unrecognized mint at slot 8. -/
def otherMintFillIx : CompiledInstruction :=
  { program_id_index := 0, accounts := [1, 2, 0, 0, 0, 3, 0, 0, 6], data := sampleFillData }

/-- A fill whose payload is only the 8-byte tag: passes the classifier,
fails the extractor's 32-byte requirement. -/
def shortFillIx : CompiledInstruction :=
  { program_id_index := 0, accounts := [1, 2, 0, 0, 0, 3, 0, 0, 4],
    data := [168, 96, 183, 163, 92, 10, 40, 160] }

/-- An instruction that is not a Jupiter fill (wrong tag). -/
def nonFillIx : CompiledInstruction :=
  { program_id_index := 0, accounts := [], data := [0, 0, 0, 0, 0, 0, 0, 0] }

/-- The trade extracted from `goodFillIx` over `sampleKeys`. -/
def goodTradeInfo : GmTradeInfo :=
  { maker := sampleSolver, taker := sampleTaker, gm_token_mint := sampleGmMint,
    gm_token_symbol := "AAPLon", gm_token_amount := 0,
    maker_output_account := sampleAta, expire_at := 0 }

/-! ## Helper lemmas -/

/-- The hardcoded `MINT_GM_DISCRIMINATOR` equals the dynamically computed
Anchor discriminator for "mint_gm", i.e. sha256("global:mint_gm")[0..8]. -/
theorem mint_gm_discriminator_eq :
    instruction_discriminator "mint_gm" = MINT_GM_DISCRIMINATOR := by decide

/-- The "fill" discriminator used by the classifier, evaluated. -/
theorem fill_discriminator_eq :
    instruction_discriminator "fill" = [168, 96, 183, 163, 92, 10, 40, 160] := by decide

/-- Little-endian u64 round trip: decoding the 8 encoded bytes returns the
value unchanged for any value below 2^64. -/
theorem u64_le_round_trip (n : Nat) (h : n < 18446744073709551616) :
    u64_from_le_bytes (u64_to_le_bytes n) = n := by
  unfold u64_from_le_bytes u64_to_le_bytes
  simp only [List.foldr]
  omega

/-- `List.find?` returns the element at the first index whose predicate
holds when every earlier element fails the predicate. -/
theorem find_first {α : Type} (p : α → Bool) :
    ∀ (l : List α) (i : Nat) (x : α), l.get? i = some x → p x = true →
      (∀ j y, j < i → l.get? j = some y → p y = false) →
      l.find? p = some x
  | [], _, _, h, _, _ => by simp at h
  | a :: t, 0, x, h, hp, _ => by
      simp only [List.get?_cons_zero, Option.some.injEq] at h
      subst h
      exact List.find?_cons_of_pos _ hp
  | a :: t, i + 1, x, h, hp, hmin => by
      have ha : p a = false := hmin 0 a (Nat.succ_pos i) rfl
      have ih := find_first p t i x (by simpa using h) hp
        (fun j y hj hy => hmin (j + 1) y (Nat.succ_lt_succ hj) (by simpa using hy))
      rw [List.find?_cons_of_neg _ (by simp [ha]), ih]

/-- `get_account` can only fail with `InvalidAccountIndex` or
`MissingAccount`. -/
theorem get_account_error_cases (ix : CompiledInstruction) (keys : List Pubkey)
    (idx : Nat) (e : GmSimulatorError)
    (h : get_account ix keys idx = .error e) :
    e = .InvalidAccountIndex ∨ e = .MissingAccount := by
  unfold get_account at h
  cases ha : ix.accounts.get? idx with
  | none =>
    simp only [ha, Except.error.injEq] at h
    exact Or.inl h.symm
  | some account_idx =>
    simp only [ha] at h
    cases hk : keys.get? account_idx with
    | none =>
      simp only [hk, Except.error.injEq] at h
      exact Or.inr h.symm
    | some pk =>
      simp only [hk] at h
      exact absurd h (by simp)

/-- Full characterization of `parse_fill_for_gm_trade` once the length check
passes and all four referenced-account slots resolve. -/
theorem parse_spec (ix : CompiledInstruction) (keys : List Pubkey)
    (maker taker out mint : Pubkey)
    (hlen : ¬ ix.data.length < 32)
    (h1 : get_account ix keys account_indices.MAKER = .ok maker)
    (h0 : get_account ix keys account_indices.TAKER = .ok taker)
    (h5 : get_account ix keys account_indices.MAKER_OUTPUT_ATA = .ok out)
    (h8 : get_account ix keys account_indices.OUTPUT_MINT = .ok mint) :
    parse_fill_for_gm_trade ix keys =
      (if is_authorized_solver maker then
        (if is_gm_token mint then
          .ok (some
            { maker := maker, taker := taker, gm_token_mint := mint,
              gm_token_symbol := (get_gm_token_symbol mint).getD "GM",
              gm_token_amount := u64_from_le_bytes ((ix.data.drop 16).take 8),
              maker_output_account := out,
              expire_at := i64_from_le_bytes ((ix.data.drop 24).take 8) })
        else .ok none)
      else .error (.UnauthorizedMaker maker)) := by
  unfold parse_fill_for_gm_trade
  rw [if_neg hlen, h1, h0, h5, h8]
  by_cases hauth : is_authorized_solver maker <;>
    by_cases hgm : is_gm_token mint <;>
      simp [hauth, hgm]

/-- `parse_fill_for_gm_trade` propagates the first failing slot lookup, in
the source's lookup order maker, taker, maker-output, output-mint. -/
theorem parse_propagates_error (ix : CompiledInstruction) (keys : List Pubkey)
    (hlen : ¬ ix.data.length < 32) (e : GmSimulatorError) :
    (get_account ix keys account_indices.MAKER = .error e →
      parse_fill_for_gm_trade ix keys = .error e)
    ∧ (∀ maker, get_account ix keys account_indices.MAKER = .ok maker →
        get_account ix keys account_indices.TAKER = .error e →
        parse_fill_for_gm_trade ix keys = .error e)
    ∧ (∀ maker taker, get_account ix keys account_indices.MAKER = .ok maker →
        get_account ix keys account_indices.TAKER = .ok taker →
        get_account ix keys account_indices.MAKER_OUTPUT_ATA = .error e →
        parse_fill_for_gm_trade ix keys = .error e)
    ∧ (∀ maker taker out, get_account ix keys account_indices.MAKER = .ok maker →
        get_account ix keys account_indices.TAKER = .ok taker →
        get_account ix keys account_indices.MAKER_OUTPUT_ATA = .ok out →
        get_account ix keys account_indices.OUTPUT_MINT = .error e →
        parse_fill_for_gm_trade ix keys = .error e) := by
  refine ⟨fun h1 => ?_, fun m h1 h0 => ?_, fun m t h1 h0 h5 => ?_,
    fun m t o h1 h0 h5 h8 => ?_⟩
  all_goals unfold parse_fill_for_gm_trade
  all_goals rw [if_neg hlen]
  · simp [h1]
  · simp [h1, h0]
  · simp [h1, h0, h5]
  · simp [h1, h0, h5, h8]

/-- Every `Ok` result of `check_gm_trade_message` has a coherent flag:
`use_gm_bundle_sim` is `true` exactly when `trade_info` is `some`. -/
theorem check_message_coherent (msg : Message) (r : GmCheckResult)
    (h : check_gm_trade_message msg = .ok r) :
    r.use_gm_bundle_sim = true ↔ r.trade_info.isSome = true := by
  unfold check_gm_trade_message at h
  by_cases he : msg.instructions.isEmpty
  · rw [if_pos he] at h
    exact absurd h (by simp)
  · rw [if_neg he] at h
    cases hf : find_fill_instruction msg.instructions msg.account_keys with
    | none =>
      simp only [hf, Except.ok.injEq] at h
      subst h
      simp [GmCheckResult.not_gm_trade]
    | some instruction =>
      simp only [hf] at h
      cases hp : parse_fill_for_gm_trade instruction msg.account_keys with
      | error e =>
        simp only [hp] at h
        exact absurd h (by simp)
      | ok o =>
        simp only [hp] at h
        cases o with
        | none =>
          simp only [Except.ok.injEq] at h
          subst h
          simp [GmCheckResult.not_gm_trade]
        | some ti =>
          simp only [Except.ok.injEq] at h
          subst h
          simp [GmCheckResult.gm_trade]

/-- Coherence for the V0 arm of `check_gm_trade_versioned_message`. -/
theorem check_v0_coherent (msg : MessageV0) (r : GmCheckResult)
    (h : check_gm_trade_versioned_message (.V0 msg) = .ok r) :
    r.use_gm_bundle_sim = true ↔ r.trade_info.isSome = true := by
  simp only [check_gm_trade_versioned_message] at h
  by_cases he : msg.instructions.isEmpty
  · rw [if_pos he] at h
    exact absurd h (by simp)
  · rw [if_neg he] at h
    cases hf : find_fill_instruction msg.instructions msg.account_keys with
    | none =>
      simp only [hf, Except.ok.injEq] at h
      subst h
      simp [GmCheckResult.not_gm_trade]
    | some instruction =>
      simp only [hf] at h
      cases hp : parse_fill_for_gm_trade instruction msg.account_keys with
      | error e =>
        simp only [hp] at h
        exact absurd h (by simp)
      | ok o =>
        simp only [hp] at h
        cases o with
        | none =>
          simp only [Except.ok.injEq] at h
          subst h
          simp [GmCheckResult.not_gm_trade]
        | some ti =>
          simp only [Except.ok.injEq] at h
          subst h
          simp [GmCheckResult.gm_trade]

/-! ## Claim theorems -/

/-- C1: For every GM token mint, destination owner (or pre-computed
destination account) and every unsigned 64-bit amount, the instruction
returned by `build_mock_mint_gm_instruction` /
`build_mock_mint_gm_instruction_with_ata` has a payload of exactly 16 bytes
whose first 8 bytes equal the "mint_gm" tag as computed by
`instruction_discriminator` (the first 8 bytes of sha256("global:mint_gm"))
and whose bytes [8:16] are the amount in little-endian, so decoding bytes
[8:16] as a little-endian u64 returns the amount unchanged. -/
theorem mint_payload_tag_and_round_trip
    (gm_token_mint destination_owner destination_ata : Pubkey)
    (amount : Nat) (hamount : amount < 18446744073709551616) :
    ((build_mock_mint_gm_instruction gm_token_mint destination_owner amount).data.length = 16
     ∧ (build_mock_mint_gm_instruction gm_token_mint destination_owner amount).data.take 8
         = instruction_discriminator "mint_gm"
     ∧ (build_mock_mint_gm_instruction gm_token_mint destination_owner amount).data.drop 8
         = u64_to_le_bytes amount
     ∧ u64_from_le_bytes
         ((build_mock_mint_gm_instruction gm_token_mint destination_owner amount).data.drop 8)
         = amount)
    ∧ (build_mock_mint_gm_instruction_with_ata gm_token_mint destination_ata destination_owner
          amount).data
        = (build_mock_mint_gm_instruction gm_token_mint destination_owner amount).data := by
  refine ⟨⟨rfl, ?_, rfl, ?_⟩, rfl⟩
  · rw [mint_gm_discriminator_eq]
    rfl
  · exact u64_le_round_trip amount hamount

/-- Witness for C1 at the AAPLon mint, a solver destination and amount
1500000000. -/
theorem mint_payload_tag_and_round_trip_witness :
    (1500000000 < 18446744073709551616)
    ∧ (((build_mock_mint_gm_instruction sampleGmMint sampleSolver 1500000000).data.length = 16
        ∧ (build_mock_mint_gm_instruction sampleGmMint sampleSolver 1500000000).data.take 8
            = instruction_discriminator "mint_gm"
        ∧ (build_mock_mint_gm_instruction sampleGmMint sampleSolver 1500000000).data.drop 8
            = u64_to_le_bytes 1500000000
        ∧ u64_from_le_bytes
            ((build_mock_mint_gm_instruction sampleGmMint sampleSolver 1500000000).data.drop 8)
            = 1500000000)
       ∧ (build_mock_mint_gm_instruction_with_ata sampleGmMint sampleAta sampleSolver
            1500000000).data
           = (build_mock_mint_gm_instruction sampleGmMint sampleSolver 1500000000).data) :=
  ⟨by decide,
   mint_payload_tag_and_round_trip sampleGmMint sampleSolver sampleAta 1500000000 (by decide)⟩

/-- C9: Every instruction returned by the precondition-instruction
synthesizers carries exactly 12 ordered account references — payer,
authority, user, role-PDA, sanity-PDA, mint-authority-PDA, mint,
destination, manager-state-PDA, token-program, associated-account-program,
system-program — where the four PDAs are derived from the fixed seed
literals (the sanity-check PDA keyed additionally by the mint, the role PDA
by the minter), the payer slot is signer and writable, the authority slot is
signer, and the sanity-check PDA, mint and destination slots are
writable. -/
theorem mint_instruction_account_list
    (gm_token_mint destination_owner destination_ata : Pubkey) (amount : Nat) :
    ((build_mock_mint_gm_instruction gm_token_mint destination_owner amount).accounts =
      [⟨admin_minter, true, true⟩,
       ⟨admin_minter, true, false⟩,
       ⟨destination_owner, false, false⟩,
       ⟨find_program_address_seed_key MINTER_ROLE_GMTOKEN_SEED admin_minter ondo_gm_program_id,
         false, false⟩,
       ⟨find_program_address_seed_key ORACLE_SANITY_CHECK_SEED gm_token_mint ondo_gm_program_id,
         false, true⟩,
       ⟨find_program_address_seed MINT_AUTHORITY_SEED ondo_gm_program_id, false, false⟩,
       ⟨gm_token_mint, false, true⟩,
       ⟨get_associated_token_address_with_program_id destination_owner gm_token_mint
          token_2022_program_id, false, true⟩,
       ⟨find_program_address_seed USDON_MANAGER_STATE_SEED ondo_gm_program_id, false, false⟩,
       ⟨token_2022_program_id, false, false⟩,
       ⟨spl_associated_token_account_id, false, false⟩,
       ⟨system_program_id, false, false⟩]
     ∧ (build_mock_mint_gm_instruction gm_token_mint destination_owner amount).accounts.length
         = 12)
    ∧ ((build_mock_mint_gm_instruction_with_ata gm_token_mint destination_ata destination_owner
          amount).accounts =
      [⟨admin_minter, true, true⟩,
       ⟨admin_minter, true, false⟩,
       ⟨destination_owner, false, false⟩,
       ⟨find_program_address_seed_key MINTER_ROLE_GMTOKEN_SEED admin_minter ondo_gm_program_id,
         false, false⟩,
       ⟨find_program_address_seed_key ORACLE_SANITY_CHECK_SEED gm_token_mint ondo_gm_program_id,
         false, true⟩,
       ⟨find_program_address_seed MINT_AUTHORITY_SEED ondo_gm_program_id, false, false⟩,
       ⟨gm_token_mint, false, true⟩,
       ⟨destination_ata, false, true⟩,
       ⟨find_program_address_seed USDON_MANAGER_STATE_SEED ondo_gm_program_id, false, false⟩,
       ⟨token_2022_program_id, false, false⟩,
       ⟨spl_associated_token_account_id, false, false⟩,
       ⟨system_program_id, false, false⟩]
     ∧ (build_mock_mint_gm_instruction_with_ata gm_token_mint destination_ata destination_owner
          amount).accounts.length = 12) :=
  ⟨⟨rfl, rfl⟩, ⟨rfl, rfl⟩⟩

/-- C5: For every `GmTradeInfo` and every blockhash,
`build_mock_mint_transaction` returns an unsigned transaction containing
exactly 5 instructions, in order: four idempotent create-token-account
instructions (taker's and maker's GM-mint accounts, then taker's and maker's
USDC accounts) followed by the precondition-mint instruction whose
destination owner is the maker and whose amount is the trade amount. -/
theorem build_transaction_five_instructions (trade_info : GmTradeInfo)
    (recent_blockhash : Hash) :
    (build_mock_mint_transaction trade_info recent_blockhash).message.instructions =
      [create_associated_token_account_idempotent admin_minter trade_info.taker
         trade_info.gm_token_mint token_2022_program_id,
       create_associated_token_account_idempotent admin_minter trade_info.maker
         trade_info.gm_token_mint token_2022_program_id,
       create_associated_token_account_idempotent admin_minter trade_info.taker
         usdc_mint spl_token_program_id,
       create_associated_token_account_idempotent admin_minter trade_info.maker
         usdc_mint spl_token_program_id,
       build_mock_mint_gm_instruction trade_info.gm_token_mint trade_info.maker
         trade_info.gm_token_amount]
    ∧ (build_mock_mint_transaction trade_info recent_blockhash).message.instructions.length
        = 5 :=
  ⟨rfl, rfl⟩

/-- C4: For any instruction list and account-key table, an instruction that
matches the program-and-tag check while every earlier instruction does not
is the one selected by the classifier, regardless of its position (so a
unique match is always selected, and with several matches the first in list
order wins); an instruction whose program reference is out of range of the
account-key table, or whose payload is shorter than 8 bytes, is treated as a
non-match, not an error. -/
theorem classifier_first_match :
    (∀ (instructions : List CompiledInstruction) (account_keys : List Pubkey)
        (i : Nat) (ix : CompiledInstruction),
        instructions.get? i = some ix →
        is_jupiter_fill_instruction ix jupiter_order_engine_program_id account_keys = true →
        (∀ j jx, j < i → instructions.get? j = some jx →
          is_jupiter_fill_instruction jx jupiter_order_engine_program_id account_keys
            = false) →
        find_fill_instruction instructions account_keys = some ix)
    ∧ (∀ (ix : CompiledInstruction) (account_keys : List Pubkey),
        account_keys.get? ix.program_id_index = none →
        is_jupiter_fill_instruction ix jupiter_order_engine_program_id account_keys = false)
    ∧ (∀ (ix : CompiledInstruction) (account_keys : List Pubkey),
        ix.data.length < 8 →
        is_jupiter_fill_instruction ix jupiter_order_engine_program_id account_keys
          = false) := by
  refine ⟨?_, ?_, ?_⟩
  · intro instructions account_keys i ix hget hp hmin
    exact find_first _ instructions i ix hget hp hmin
  · intro ix keys h
    unfold is_jupiter_fill_instruction
    rw [h]
  · intro ix keys h
    unfold is_jupiter_fill_instruction
    cases hk : keys.get? ix.program_id_index with
    | none => rfl
    | some pid =>
      by_cases hpid : pid != jupiter_order_engine_program_id
      · simp [hpid]
      · simp [hpid, h]

/-- Witness for C4: in the list [non-fill, fill] the fill at index 1 is
selected. -/
theorem classifier_first_match_witness :
    ([nonFillIx, goodFillIx].get? 1 = some goodFillIx)
    ∧ is_jupiter_fill_instruction goodFillIx jupiter_order_engine_program_id sampleKeys = true
    ∧ find_fill_instruction [nonFillIx, goodFillIx] sampleKeys = some goodFillIx :=
  ⟨rfl, by decide,
   classifier_first_match.1 [nonFillIx, goodFillIx] sampleKeys 1 goodFillIx rfl (by decide)
     (fun j jx hj hget => by
       match j, hj with
       | 0, _ =>
         simp only [List.get?_cons_zero, Option.some.injEq] at hget
         subst hget
         decide)⟩

/-- C2: For every instruction that matched the program-and-tag check, if the
decoded maker (referenced-account slot 1) is not in the authorized-solver
allow-list, extraction returns `UnauthorizedMaker maker` — even when all
other fields are well-formed and regardless of whether the slot-8 mint is
recognized, because the authorization check precedes the mint-recognition
check — and consequently a `GmTradeInfo` is only ever produced with an
authorized maker. -/
theorem unauthorized_maker_gate :
    (∀ (ix : CompiledInstruction) (account_keys : List Pubkey) (maker : Pubkey),
        ¬ ix.data.length < 32 →
        get_account ix account_keys account_indices.MAKER = .ok maker →
        (get_account ix account_keys account_indices.TAKER).isOk = true →
        (get_account ix account_keys account_indices.MAKER_OUTPUT_ATA).isOk = true →
        (get_account ix account_keys account_indices.OUTPUT_MINT).isOk = true →
        is_authorized_solver maker = false →
        parse_fill_for_gm_trade ix account_keys = .error (.UnauthorizedMaker maker))
    ∧ (∀ (ix : CompiledInstruction) (account_keys : List Pubkey) (ti : GmTradeInfo),
        parse_fill_for_gm_trade ix account_keys = .ok (some ti) →
        is_authorized_solver ti.maker = true) := by
  constructor
  · intro ix keys maker hlen h1 hT hO hM hunauth
    cases h0 : get_account ix keys account_indices.TAKER with
    | error e => rw [h0] at hT; exact absurd hT (by simp [Except.isOk, Except.toBool])
    | ok taker =>
      cases h5 : get_account ix keys account_indices.MAKER_OUTPUT_ATA with
      | error e => rw [h5] at hO; exact absurd hO (by simp [Except.isOk, Except.toBool])
      | ok out =>
        cases h8 : get_account ix keys account_indices.OUTPUT_MINT with
        | error e => rw [h8] at hM; exact absurd hM (by simp [Except.isOk, Except.toBool])
        | ok mint =>
          rw [parse_spec ix keys maker taker out mint hlen h1 h0 h5 h8]
          simp [hunauth]
  · intro ix keys ti h
    by_cases hlen : ix.data.length < 32
    · unfold parse_fill_for_gm_trade at h
      rw [if_pos hlen] at h
      exact absurd h (by simp)
    · cases h1 : get_account ix keys account_indices.MAKER with
      | error e =>
        rw [(parse_propagates_error ix keys hlen e).1 h1] at h
        exact absurd h (by simp)
      | ok maker =>
        cases h0 : get_account ix keys account_indices.TAKER with
        | error e =>
          rw [(parse_propagates_error ix keys hlen e).2.1 maker h1 h0] at h
          exact absurd h (by simp)
        | ok taker =>
          cases h5 : get_account ix keys account_indices.MAKER_OUTPUT_ATA with
          | error e =>
            rw [(parse_propagates_error ix keys hlen e).2.2.1 maker taker h1 h0 h5] at h
            exact absurd h (by simp)
          | ok out =>
            cases h8 : get_account ix keys account_indices.OUTPUT_MINT with
            | error e =>
              rw [(parse_propagates_error ix keys hlen e).2.2.2 maker taker out h1 h0 h5 h8]
                at h
              exact absurd h (by simp)
            | ok mint =>
              rw [parse_spec ix keys maker taker out mint hlen h1 h0 h5 h8] at h
              by_cases hauth : is_authorized_solver maker
              · by_cases hgm : is_gm_token mint
                · rw [if_pos hauth, if_pos hgm] at h
                  simp only [Except.ok.injEq, Option.some.injEq] at h
                  subst h
                  simpa using hauth
                · rw [if_pos hauth, if_neg hgm] at h
                  exact absurd h (by simp)
              · rw [if_neg hauth] at h
                exact absurd h (by simp)

/-- Witness for C2: a well-formed fill whose maker is an unlisted address is
rejected with `UnauthorizedMaker`. -/
theorem unauthorized_maker_gate_witness :
    (¬ unauthorizedFillIx.data.length < 32)
    ∧ get_account unauthorizedFillIx sampleKeys account_indices.MAKER = .ok sampleOutsider
    ∧ (get_account unauthorizedFillIx sampleKeys account_indices.TAKER).isOk = true
    ∧ (get_account unauthorizedFillIx sampleKeys account_indices.MAKER_OUTPUT_ATA).isOk = true
    ∧ (get_account unauthorizedFillIx sampleKeys account_indices.OUTPUT_MINT).isOk = true
    ∧ is_authorized_solver sampleOutsider = false
    ∧ parse_fill_for_gm_trade unauthorizedFillIx sampleKeys
        = .error (.UnauthorizedMaker sampleOutsider) :=
  ⟨by decide, rfl, rfl, rfl, rfl, by decide,
   unauthorized_maker_gate.1 unauthorizedFillIx sampleKeys sampleOutsider (by decide) rfl
     rfl rfl rfl (by decide)⟩

/-- C3: Successful extraction returns a trade whose taker is the account at
slot 0, maker the account at slot 1, maker-output account at slot 5,
target-asset mint at slot 8 (resolved through the account-key table), whose
amount is the unsigned 64-bit little-endian value of payload bytes [16:24]
and whose expiry is the signed 64-bit little-endian value of payload bytes
[24:32], both verbatim with no clamping or range validation; when the
payload is long enough but a slot lookup fails, extraction instead fails
with `MissingAccount` / `InvalidAccountIndex`. -/
theorem extraction_fields_and_slots :
    (∀ (ix : CompiledInstruction) (account_keys : List Pubkey) (ti : GmTradeInfo),
        parse_fill_for_gm_trade ix account_keys = .ok (some ti) →
        get_account ix account_keys account_indices.TAKER = .ok ti.taker
        ∧ get_account ix account_keys account_indices.MAKER = .ok ti.maker
        ∧ get_account ix account_keys account_indices.MAKER_OUTPUT_ATA
            = .ok ti.maker_output_account
        ∧ get_account ix account_keys account_indices.OUTPUT_MINT = .ok ti.gm_token_mint
        ∧ ti.gm_token_amount = u64_from_le_bytes ((ix.data.drop 16).take 8)
        ∧ ti.expire_at = i64_from_le_bytes ((ix.data.drop 24).take 8))
    ∧ (∀ (ix : CompiledInstruction) (account_keys : List Pubkey),
        ¬ ix.data.length < 32 →
        ((get_account ix account_keys account_indices.MAKER).isOk = false
          ∨ (get_account ix account_keys account_indices.TAKER).isOk = false
          ∨ (get_account ix account_keys account_indices.MAKER_OUTPUT_ATA).isOk = false
          ∨ (get_account ix account_keys account_indices.OUTPUT_MINT).isOk = false) →
        parse_fill_for_gm_trade ix account_keys = .error .InvalidAccountIndex
          ∨ parse_fill_for_gm_trade ix account_keys = .error .MissingAccount) := by
  constructor
  · intro ix keys ti h
    by_cases hlen : ix.data.length < 32
    · unfold parse_fill_for_gm_trade at h
      rw [if_pos hlen] at h
      exact absurd h (by simp)
    · cases h1 : get_account ix keys account_indices.MAKER with
      | error e =>
        rw [(parse_propagates_error ix keys hlen e).1 h1] at h
        exact absurd h (by simp)
      | ok maker =>
        cases h0 : get_account ix keys account_indices.TAKER with
        | error e =>
          rw [(parse_propagates_error ix keys hlen e).2.1 maker h1 h0] at h
          exact absurd h (by simp)
        | ok taker =>
          cases h5 : get_account ix keys account_indices.MAKER_OUTPUT_ATA with
          | error e =>
            rw [(parse_propagates_error ix keys hlen e).2.2.1 maker taker h1 h0 h5] at h
            exact absurd h (by simp)
          | ok out =>
            cases h8 : get_account ix keys account_indices.OUTPUT_MINT with
            | error e =>
              rw [(parse_propagates_error ix keys hlen e).2.2.2 maker taker out h1 h0 h5 h8]
                at h
              exact absurd h (by simp)
            | ok mint =>
              rw [parse_spec ix keys maker taker out mint hlen h1 h0 h5 h8] at h
              by_cases hauth : is_authorized_solver maker
              · by_cases hgm : is_gm_token mint
                · rw [if_pos hauth, if_pos hgm] at h
                  simp only [Except.ok.injEq, Option.some.injEq] at h
                  subst h
                  exact ⟨rfl, rfl, rfl, rfl, rfl, rfl⟩
                · rw [if_pos hauth, if_neg hgm] at h
                  exact absurd h (by simp)
              · rw [if_neg hauth] at h
                exact absurd h (by simp)
  · intro ix keys hlen hbad
    cases h1 : get_account ix keys account_indices.MAKER with
    | error e =>
      have hp := (parse_propagates_error ix keys hlen e).1 h1
      rcases get_account_error_cases ix keys account_indices.MAKER e h1 with he | he <;>
        rw [he] at hp
      · exact Or.inl hp
      · exact Or.inr hp
    | ok maker =>
      cases h0 : get_account ix keys account_indices.TAKER with
      | error e =>
        have hp := (parse_propagates_error ix keys hlen e).2.1 maker h1 h0
        rcases get_account_error_cases ix keys account_indices.TAKER e h0 with he | he <;>
          rw [he] at hp
        · exact Or.inl hp
        · exact Or.inr hp
      | ok taker =>
        cases h5 : get_account ix keys account_indices.MAKER_OUTPUT_ATA with
        | error e =>
          have hp := (parse_propagates_error ix keys hlen e).2.2.1 maker taker h1 h0 h5
          rcases get_account_error_cases ix keys account_indices.MAKER_OUTPUT_ATA e h5 with
            he | he <;> rw [he] at hp
          · exact Or.inl hp
          · exact Or.inr hp
        | ok out =>
          cases h8 : get_account ix keys account_indices.OUTPUT_MINT with
          | error e =>
            have hp := (parse_propagates_error ix keys hlen e).2.2.2 maker taker out h1 h0 h5 h8
            rcases get_account_error_cases ix keys account_indices.OUTPUT_MINT e h8 with
              he | he <;> rw [he] at hp
            · exact Or.inl hp
            · exact Or.inr hp
          | ok mint =>
            rw [h1, h0, h5, h8] at hbad
            rcases hbad with hb | hb | hb | hb <;>
              exact absurd hb (by simp [Except.isOk, Except.toBool])

/-- Witness for C3: the well-formed authorized GM fill extracts exactly the
expected trade fields. -/
theorem extraction_fields_and_slots_witness :
    parse_fill_for_gm_trade goodFillIx sampleKeys = .ok (some goodTradeInfo)
    ∧ (get_account goodFillIx sampleKeys account_indices.TAKER = .ok goodTradeInfo.taker
       ∧ get_account goodFillIx sampleKeys account_indices.MAKER = .ok goodTradeInfo.maker
       ∧ get_account goodFillIx sampleKeys account_indices.MAKER_OUTPUT_ATA
           = .ok goodTradeInfo.maker_output_account
       ∧ get_account goodFillIx sampleKeys account_indices.OUTPUT_MINT
           = .ok goodTradeInfo.gm_token_mint
       ∧ goodTradeInfo.gm_token_amount = u64_from_le_bytes ((goodFillIx.data.drop 16).take 8)
       ∧ goodTradeInfo.expire_at = i64_from_le_bytes ((goodFillIx.data.drop 24).take 8)) :=
  ⟨rfl, extraction_fields_and_slots.1 goodFillIx sampleKeys goodTradeInfo rfl⟩

/-- C6: A matched instruction whose maker is authorized but whose slot-8
mint is not in the recognized-mint set extracts to `Ok(None)` — not an
error — and the classification call consequently reports
`use_gm_bundle_sim = false` with no trade payload. -/
theorem non_gm_mint_pass_through :
    (∀ (ix : CompiledInstruction) (account_keys : List Pubkey)
        (maker taker out mint : Pubkey),
        ¬ ix.data.length < 32 →
        get_account ix account_keys account_indices.MAKER = .ok maker →
        get_account ix account_keys account_indices.TAKER = .ok taker →
        get_account ix account_keys account_indices.MAKER_OUTPUT_ATA = .ok out →
        get_account ix account_keys account_indices.OUTPUT_MINT = .ok mint →
        is_authorized_solver maker = true →
        is_gm_token mint = false →
        parse_fill_for_gm_trade ix account_keys = .ok none)
    ∧ (∀ (msg : Message) (ix : CompiledInstruction),
        find_fill_instruction msg.instructions msg.account_keys = some ix →
        parse_fill_for_gm_trade ix msg.account_keys = .ok none →
        check_gm_trade_message msg = .ok GmCheckResult.not_gm_trade
        ∧ GmCheckResult.not_gm_trade.use_gm_bundle_sim = false
        ∧ GmCheckResult.not_gm_trade.trade_info = none) := by
  constructor
  · intro ix keys maker taker out mint hlen h1 h0 h5 h8 hauth hgm
    rw [parse_spec ix keys maker taker out mint hlen h1 h0 h5 h8]
    simp [hauth, hgm]
  · intro msg ix hfind hparse
    have hne : msg.instructions.isEmpty = false := by
      cases hi : msg.instructions with
      | nil =>
        rw [hi] at hfind
        exact absurd hfind (by simp [find_fill_instruction])
      | cons a t => rfl
    refine ⟨?_, rfl, rfl⟩
    unfold check_gm_trade_message
    rw [if_neg (by simp [hne]), hfind]
    simp [hparse]

/-- Witness for C6: the authorized fill whose mint is unrecognized yields
`Ok(None)` and a no-GM-trade classification. -/
theorem non_gm_mint_pass_through_witness :
    (¬ otherMintFillIx.data.length < 32)
    ∧ get_account otherMintFillIx sampleKeys account_indices.MAKER = .ok sampleSolver
    ∧ get_account otherMintFillIx sampleKeys account_indices.OUTPUT_MINT = .ok sampleOtherMint
    ∧ is_authorized_solver sampleSolver = true
    ∧ is_gm_token sampleOtherMint = false
    ∧ parse_fill_for_gm_trade otherMintFillIx sampleKeys = .ok none :=
  ⟨by decide, rfl, rfl, by decide, by decide,
   non_gm_mint_pass_through.1 otherMintFillIx sampleKeys sampleSolver sampleTaker sampleAta
     sampleOtherMint (by decide) rfl rfl rfl rfl (by decide) (by decide)⟩

/-- C7: Classifying a message with an empty instruction list fails with the
empty-instruction-set error (`EmptyTransaction`), while a non-empty list
containing no instruction matching the target program and fill tag yields
the normal no-match result (`use_gm_bundle_sim = false`), not an error —
the two cases are distinguishable by the caller. -/
theorem empty_vs_no_match :
    (∀ account_keys : List Pubkey,
        check_gm_trade_message { account_keys := account_keys, instructions := [] }
          = .error .EmptyTransaction)
    ∧ (∀ msg : Message, msg.instructions ≠ [] →
        (∀ ix ∈ msg.instructions,
          is_jupiter_fill_instruction ix jupiter_order_engine_program_id msg.account_keys
            = false) →
        check_gm_trade_message msg = .ok GmCheckResult.not_gm_trade
        ∧ GmCheckResult.not_gm_trade.use_gm_bundle_sim = false) := by
  constructor
  · intro account_keys
    rfl
  · intro msg hne hall
    refine ⟨?_, rfl⟩
    have hfind : find_fill_instruction msg.instructions msg.account_keys = none :=
      List.find?_eq_none.mpr (fun x hx => by simp [hall x hx])
    unfold check_gm_trade_message
    rw [if_neg (by simp [List.isEmpty_iff, hne]), hfind]

/-- Witness for C7: a singleton list with a non-fill instruction classifies
to the no-match result. -/
theorem empty_vs_no_match_witness :
    ({ account_keys := sampleKeys, instructions := [nonFillIx] } : Message).instructions ≠ []
    ∧ check_gm_trade_message { account_keys := sampleKeys, instructions := [nonFillIx] }
        = .ok GmCheckResult.not_gm_trade
    ∧ GmCheckResult.not_gm_trade.use_gm_bundle_sim = false :=
  ⟨by simp,
   (empty_vs_no_match.2 { account_keys := sampleKeys, instructions := [nonFillIx] } (by simp)
     (fun ix hx => by
       simp only [List.mem_singleton] at hx
       subst hx
       decide)).1,
   rfl⟩

/-- C8: A matched instruction whose payload is shorter than 32 bytes makes
extraction fail with the malformed-payload error (`InstructionParseError`
with the too-short message); a fill whose payload has at least 8 but fewer
than 32 bytes passes the classifier's tag check (which only requires 8
bytes) yet makes the whole classification call return that error rather
than a no-match result. -/
theorem short_payload_malformed :
    (∀ (ix : CompiledInstruction) (account_keys : List Pubkey),
        ix.data.length < 32 →
        parse_fill_for_gm_trade ix account_keys
          = .error (.InstructionParseError (too_short_msg ix.data.length)))
    ∧ (∀ (ix : CompiledInstruction) (account_keys : List Pubkey),
        is_jupiter_fill_instruction ix jupiter_order_engine_program_id account_keys = true →
        8 ≤ ix.data.length)
    ∧ (∀ (msg : Message) (ix : CompiledInstruction),
        find_fill_instruction msg.instructions msg.account_keys = some ix →
        ix.data.length < 32 →
        check_gm_trade_message msg
          = .error (.InstructionParseError (too_short_msg ix.data.length))) := by
  have hparse : ∀ (ix : CompiledInstruction) (keys : List Pubkey), ix.data.length < 32 →
      parse_fill_for_gm_trade ix keys
        = .error (.InstructionParseError (too_short_msg ix.data.length)) := by
    intro ix keys h
    unfold parse_fill_for_gm_trade
    rw [if_pos h]
  refine ⟨hparse, ?_, ?_⟩
  · intro ix keys h
    unfold is_jupiter_fill_instruction at h
    cases hk : keys.get? ix.program_id_index with
    | none =>
      simp only [hk] at h
      exact absurd h (by simp)
    | some pid =>
      simp only [hk] at h
      by_cases hpid : pid != jupiter_order_engine_program_id
      · rw [if_pos hpid] at h
        exact absurd h (by simp)
      · rw [if_neg hpid] at h
        by_cases hlen : ix.data.length < 8
        · rw [if_pos hlen] at h
          exact absurd h (by simp)
        · omega
  · intro msg ix hfind hlen
    have hne : msg.instructions.isEmpty = false := by
      cases hi : msg.instructions with
      | nil =>
        rw [hi] at hfind
        exact absurd hfind (by simp [find_fill_instruction])
      | cons a t => rfl
    unfold check_gm_trade_message
    rw [if_neg (by simp [hne]), hfind]
    simp [hparse ix msg.account_keys hlen]

/-- Witness for C8: the 8-byte fill passes the classifier but the
classification call fails with the too-short parse error. -/
theorem short_payload_malformed_witness :
    find_fill_instruction
        ({ account_keys := sampleKeys, instructions := [shortFillIx] } : Message).instructions
        ({ account_keys := sampleKeys, instructions := [shortFillIx] } : Message).account_keys
      = some shortFillIx
    ∧ shortFillIx.data.length < 32
    ∧ check_gm_trade_message { account_keys := sampleKeys, instructions := [shortFillIx] }
        = .error (.InstructionParseError (too_short_msg shortFillIx.data.length)) :=
  ⟨rfl, by decide,
   short_payload_malformed.2.2 { account_keys := sampleKeys, instructions := [shortFillIx] }
     shortFillIx rfl (by decide)⟩

/-- C10: Every `GmCheckResult` returned (as `Ok`) by `check_gm_trade`,
`check_gm_trade_message`, `check_gm_trade_versioned` or
`check_gm_trade_versioned_message` satisfies `use_gm_bundle_sim = true` if
and only if `trade_info` is `some`: the flag and the optional payload are
always coherent. -/
theorem flag_trade_info_coherent :
    (∀ (t : Transaction) (r : GmCheckResult), check_gm_trade t = .ok r →
        (r.use_gm_bundle_sim = true ↔ r.trade_info.isSome = true))
    ∧ (∀ (msg : Message) (r : GmCheckResult), check_gm_trade_message msg = .ok r →
        (r.use_gm_bundle_sim = true ↔ r.trade_info.isSome = true))
    ∧ (∀ (vt : VersionedTransaction) (r : GmCheckResult),
        check_gm_trade_versioned vt = .ok r →
        (r.use_gm_bundle_sim = true ↔ r.trade_info.isSome = true))
    ∧ (∀ (vm : VersionedMessage) (r : GmCheckResult),
        check_gm_trade_versioned_message vm = .ok r →
        (r.use_gm_bundle_sim = true ↔ r.trade_info.isSome = true)) := by
  have hv : ∀ (vm : VersionedMessage) (r : GmCheckResult),
      check_gm_trade_versioned_message vm = .ok r →
      (r.use_gm_bundle_sim = true ↔ r.trade_info.isSome = true) := by
    intro vm r h
    cases vm with
    | Legacy m => exact check_message_coherent m r h
    | V0 m => exact check_v0_coherent m r h
  exact ⟨fun t r h => check_message_coherent t.message r h,
    fun msg r h => check_message_coherent msg r h,
    fun vt r h => hv vt.message r h,
    hv⟩

/-- Witness for C10: a GM-trade message produces a coherent flagged result
through `check_gm_trade_message`. -/
theorem flag_trade_info_coherent_witness :
    check_gm_trade_message { account_keys := sampleKeys, instructions := [goodFillIx] }
        = .ok (GmCheckResult.gm_trade goodTradeInfo)
    ∧ ((GmCheckResult.gm_trade goodTradeInfo).use_gm_bundle_sim = true
        ↔ (GmCheckResult.gm_trade goodTradeInfo).trade_info.isSome = true) :=
  ⟨rfl,
   flag_trade_info_coherent.2.1 { account_keys := sampleKeys, instructions := [goodFillIx] }
     (GmCheckResult.gm_trade goodTradeInfo) rfl⟩

end OndoGm
